import Mathlib

/-!
Shallow embedding of the acquisition/control loop of
`Power_Supply_Stopper.py` (Rigol power-supply logger) and of the variant
logging loop in the second source file, with proofs about its stop
conditions, stop procedure, data accumulation, sliding-window buffer,
pacing floor and export pipeline.

Measured values are embedded as exact rationals; the Python float `inf`
produced for the resistance of a near-zero current is embedded as `none`
in an `Option ℚ`.
-/

namespace PSS

/-- Constant `MIN_PLOT_POINTS = 10` (source line 120). -/
def MIN_PLOT_POINTS : ℕ := 10

/-- Constant `MIN_UPDATE_INTERVAL_MS = 10` (source line 125). -/
def MIN_UPDATE_INTERVAL_MS : ℚ := 10

/-- Constant `INITIAL_SETTLING_TIME_S = 1.0` (source line 126). -/
def INITIAL_SETTLING_TIME_S : ℚ := 1

/-- Constant `ZERO_VI_STOP_DELAY_S = 1.0` (source line 127). -/
def ZERO_VI_STOP_DELAY_S : ℚ := 1

/-- Constant `ZERO_VI_THRESHOLD = 0.001` (source line 128). -/
def ZERO_VI_THRESHOLD : ℚ := 1/1000

/-- The `abs(c_m) > 1e-9` guard used when computing resistance (source line 764). -/
def RESISTANCE_EPS : ℚ := 1/1000000000

/-- Operation mode strings `MODE_CONSTANT_VOLTAGE` / `MODE_CONSTANT_CURRENT`. -/
inductive OperationMode
  | constantVoltage
  | constantCurrent
deriving DecidableEq, Repr

/-- The stop-condition setting, `below` or `above` (compared after `.lower()`). -/
inductive StopComparison
  | below
  | above
deriving DecidableEq, Repr

/-- The per-run configuration fields read by `DataLogger` during a run. -/
structure Config where
  operationMode : OperationMode
  threshold : ℚ
  stopComparison : StopComparison
  updateIntervalMs : ℚ
  isSimulating : Bool
deriving DecidableEq, Repr

/-- Method `DataLogger._check_stop_condition` (source lines 719-737): in constant-voltage
mode the checked value is `abs(i)`, in constant-current mode it is `v`;
`below` stops when the checked value is strictly below the threshold,
`above` when strictly above. -/
def checkStopCondition (cfg : Config) (v i : ℚ) : Bool :=
  let valueToCheck : ℚ :=
    match cfg.operationMode with
    | .constantVoltage => |i|
    | .constantCurrent => v
  match cfg.stopComparison with
  | .below => valueToCheck < cfg.threshold
  | .above => valueToCheck > cfg.threshold

/-- The stop-condition block of one `_log_data_loop` tick (source lines 770-778):
first the zero-V/I check (strictly after `ZERO_VI_STOP_DELAY_S`), and only in
the `elif` branch — strictly after `INITIAL_SETTLING_TIME_S` — the threshold
check. -/
def stopNow (cfg : Config) (et v i : ℚ) : Bool :=
  if et > ZERO_VI_STOP_DELAY_S ∧ |v| < ZERO_VI_THRESHOLD ∧ |i| < ZERO_VI_THRESHOLD then
    true
  else if et > INITIAL_SETTLING_TIME_S then
    checkStopCondition cfg v i
  else
    false

/-- One logged data row `[et, v_m, c_m, p, r]`; `resistance = none` embeds the
float `inf` stored when `abs(c_m) <= 1e-9`. -/
structure Sample where
  time : ℚ
  voltage : ℚ
  current : ℚ
  power : ℚ
  resistance : Option ℚ
deriving DecidableEq, Repr

/-- Construction of one data row (source lines 763-765):
`p = v_m * c_m`, and `r` is `v_m / c_m` when `abs(c_m) > 1e-9`, else the float `inf`. -/
def mkSample (et v c : ℚ) : Sample :=
  { time := et
    voltage := v
    current := c
    power := v * c
    resistance := if |c| > RESISTANCE_EPS then some (v / c) else none }

/-- Outcome of the per-tick read (`_read_simulation` / `_read_instrument`,
source line 754): a measured pair, a `VisaIOError` from the transport, or a
`ValueError` from `float(...)` on a malformed numeric reply. -/
inductive ReadOutcome
  | ok (v c : ℚ)
  | visaError
  | parseError
deriving DecidableEq, Repr

/-- Input of one loop iteration: either an executed read at
elapsed time `et`, or an externally requested stop observed at the top of the
iteration (`stop_event` set by `DataLogger.stop`). -/
inductive TickInput
  | tick (et : ℚ) (reading : ReadOutcome)
  | stopRequested
deriving DecidableEq, Repr

/-- The loop-visible mutable state of a `DataLogger` run: the `_logged_data`
accumulator, the rows put on the `DataManager` queue, the `stop_event` flag,
the number of `:OUTP CH1,OFF` / `:OUTP OFF` writes issued, and whether the
distinguished `STOP_SIGNAL` status was emitted. -/
structure LoopState where
  logged : List Sample
  queued : List Sample
  stopFlag : Bool
  forceOffCount : ℕ
  autoStopSignaled : Bool
deriving DecidableEq, Repr

/-- Method `DataLogger.start`: the state reset (source lines 633-653): `stop_event.clear()`
and `self._logged_data = []` before the worker thread begins; the display
queue is not touched here. -/
def startRun (prior : LoopState) : LoopState :=
  { prior with logged := [], stopFlag := false }

/-- The body of one `_log_data_loop` iteration after the `while` guard
(source lines 749-789). `connected` embeds `self.dp` being non-`None`.
A `VisaIOError` or any other read exception sets `stop_event` and breaks;
a successful read appends the row to `_logged_data`, puts it on the queue,
and then evaluates the stop conditions: on `stop_now` the output-off write is
issued (only when not simulating and connected), `stop_event` is set and the
`STOP_SIGNAL` status emitted. -/
def logStep (cfg : Config) (connected : Bool) (st : LoopState) (t : TickInput) :
    LoopState :=
  match t with
  | .stopRequested => { st with stopFlag := true }
  | .tick et r =>
    match r with
    | .visaError => { st with stopFlag := true }
    | .parseError => { st with stopFlag := true }
    | .ok v c =>
      let s := mkSample et v c
      let st' := { st with logged := st.logged ++ [s], queued := st.queued ++ [s] }
      if stopNow cfg et v c then
        { st' with
          forceOffCount :=
            st'.forceOffCount + (if cfg.isSimulating = false ∧ connected = true then 1 else 0)
          stopFlag := true
          autoStopSignaled := true }
      else st'

/-- Method `_log_data_loop` over a list of iteration inputs: the `while not
self.stop_event.is_set()` guard is checked before each iteration. -/
def runLoop (cfg : Config) (connected : Bool) : LoopState → List TickInput → LoopState
  | st, [] => st
  | st, t :: ts =>
    if st.stopFlag then st
    else runLoop cfg connected (logStep cfg connected st t) ts

/-- The ordered sequence of samples a run over the given iteration inputs
produces: one sample per successful read, cut off (inclusively) at the first
tick whose stop conditions fire, and cut off (exclusively) at a read error or
an external stop request. -/
def producedSamples (cfg : Config) : List TickInput → List Sample
  | [] => []
  | .stopRequested :: _ => []
  | .tick _ .visaError :: _ => []
  | .tick _ .parseError :: _ => []
  | .tick et (.ok v c) :: ts =>
    if stopNow cfg et v c then [mkSample et v c]
    else mkSample et v c :: producedSamples cfg ts

/-- The externally observable actions of `DataLogger.stop` and of the
`_close_connection` it calls. -/
inductive StopEvent
  | exportData
  | forceOff
  | disconnect
  | clearThread
deriving DecidableEq, Repr

/-- Result of `DataLogger.stop`: the ordered action trace, the sample list
handed to `DataExporter.export_data`, and the accumulator contents after
`stop` returns. -/
structure StopResult where
  events : List StopEvent
  exported : List Sample
  loggedAfter : List Sample
deriving DecidableEq, Repr

/-- Method `DataLogger.stop` (source lines 656-675) together with
`_close_connection` (source lines 588-603): after setting `stop_event` and
joining the worker, it first hands `self._logged_data` (with the config and
notes) to `DataExporter.export_data`; then, only when not simulating and the
handle `self.dp` is still set, `_close_connection` attempts the `:OUTP OFF`
write and closes the handle; finally `self.logging_thread = None`. The
`_logged_data` accumulator itself is not cleared here (it is cleared by the
next `start`). -/
def stopRun (isSimulating connected : Bool) (logged : List Sample) : StopResult :=
  { events :=
      [.exportData] ++
        (if isSimulating then []
         else if connected then [.forceOff, .disconnect] else []) ++
      [.clearThread]
    exported := logged
    loggedAfter := logged }

/-- How a logging loop responds to one read outcome. -/
inductive ReadHandling
  | logSample
  | skipTickWithWarning
  | abortRun
deriving DecidableEq, Repr

/-- Read-exception dispatch of `_log_data_loop` in `Power_Supply_Stopper.py`
(source lines 753-761): `except pyvisa.errors.VisaIOError` sets `stop_event`
and breaks, and the following `except Exception` — which catches the
`ValueError` raised by `float(...)` on a malformed reply — also sets
`stop_event` and breaks. -/
def readHandlingMain : ReadOutcome → ReadHandling
  | .ok _ _ => .logSample
  | .visaError => .abortRun
  | .parseError => .abortRun

/-- Read-exception dispatch of `_log_data` in the second source file
(part_000 lines 1700-1718): `except ValueError` puts a warning
("Skipping point."), sleeps the remainder of the interval and `continue`s;
`except pyvisa.errors.VisaIOError` sets `stop_event` and breaks. -/
def readHandlingVariant : ReadOutcome → ReadHandling
  | .ok _ _ => .logSample
  | .visaError => .abortRun
  | .parseError => .skipTickWithWarning

/-- A `collections.deque(maxlen := cap)` append: the new element goes on the
right and the oldest elements fall off the left once the length exceeds the
capacity. -/
def dequeAppend (cap : ℕ) (xs : List α) (x : α) : List α :=
  let ys := xs ++ [x]
  if ys.length > cap then ys.drop (ys.length - cap) else ys

/-- The five parallel plotting deques of `DataManager` (source lines 392-417)
plus their shared capacity; resistance entries keep the `Option ℚ` embedding
of `inf`. -/
structure DataManager where
  maxPlotPoints : ℕ
  timeData : List ℚ
  voltageData : List ℚ
  currentData : List ℚ
  powerData : List ℚ
  resistanceData : List (Option ℚ)
deriving DecidableEq, Repr

/-- Constructor `DataManager.__init__` (source lines 394-401):
`self.max_plot_points = max(max_plot_points, MIN_PLOT_POINTS)` and five empty
deques with that `maxlen`. -/
def mkDataManager (maxPlotPoints : ℕ) : DataManager :=
  { maxPlotPoints := max maxPlotPoints MIN_PLOT_POINTS
    timeData := []
    voltageData := []
    currentData := []
    powerData := []
    resistanceData := [] }

/-- Method `DataManager.append_for_plotting` (source lines 407-411): one append to
each of the five deques. -/
def appendForPlotting (dm : DataManager) (t v i p : ℚ) (r : Option ℚ) : DataManager :=
  { dm with
    timeData := dequeAppend dm.maxPlotPoints dm.timeData t
    voltageData := dequeAppend dm.maxPlotPoints dm.voltageData v
    currentData := dequeAppend dm.maxPlotPoints dm.currentData i
    powerData := dequeAppend dm.maxPlotPoints dm.powerData p
    resistanceData := dequeAppend dm.maxPlotPoints dm.resistanceData r }

/-- Method `DataManager.clear_plot_data` (source lines 413-417). -/
def clearPlotData (dm : DataManager) : DataManager :=
  { dm with
    timeData := []
    voltageData := []
    currentData := []
    powerData := []
    resistanceData := [] }

/-- One plotting row fed to `append_for_plotting`. -/
structure PlotRow where
  t : ℚ
  v : ℚ
  i : ℚ
  p : ℚ
  r : Option ℚ
deriving DecidableEq, Repr

/-- A sequence of plotting-buffer operations. -/
inductive DMOp
  | append (row : PlotRow)
  | clear
deriving DecidableEq, Repr

/-- Apply one plotting-buffer operation. -/
def applyDMOp (dm : DataManager) : DMOp → DataManager
  | .append row => appendForPlotting dm row.t row.v row.i row.p row.r
  | .clear => clearPlotData dm

/-- Apply a sequence of plotting-buffer operations. -/
def applyDMOps (dm : DataManager) (ops : List DMOp) : DataManager :=
  ops.foldl applyDMOp dm

/-- All five plotting series have the same length. -/
def seriesInLockstep (dm : DataManager) : Prop :=
  dm.timeData.length = dm.voltageData.length ∧
  dm.timeData.length = dm.currentData.length ∧
  dm.timeData.length = dm.powerData.length ∧
  dm.timeData.length = dm.resistanceData.length

instance (dm : DataManager) : Decidable (seriesInLockstep dm) := by
  unfold seriesInLockstep; infer_instance

/-- Severity levels of messages put on the status queue. -/
inductive StatusLevel
  | info
  | success
  | warning
  | error
deriving DecidableEq, Repr

/-- The three writable formats of `DataExporter.save_map` (source lines
511-515). -/
inductive Fmt
  | csv
  | xlsx
  | json
deriving DecidableEq, Repr

/-- The configured `export_format` value: one concrete format, the string
`"all"`, or a string not in `save_map`. -/
inductive ExportSelection
  | single (f : Fmt)
  | allFormats
  | unknown
deriving DecidableEq, Repr

/-- Selection logic `formats_to_save = save_map.keys() if export_format == "all" else
[export_format]` (source line 517), combined with the `if fmt in save_map`
guard of the loop (source line 520): an unrecognized format yields no
attempted writes. -/
def formatsToSave : ExportSelection → List Fmt
  | .allFormats => [.csv, .xlsx, .json]
  | .single f => [f]
  | .unknown => []

/-- What one call to `DataExporter.export_data` did: the status messages put
on the queue and, for each attempted format in order, whether its writer
reported success. -/
structure ExportReport where
  statuses : List StatusLevel
  attempts : List (Fmt × Bool)
deriving DecidableEq, Repr

/-- Method `DataExporter.export_data` (source lines 502-524), with the
writer of each format abstracted as a success/failure oracle `writerOk`: an empty data list
puts a single warning ("No data logged to export.") and returns without
attempting any write; otherwise every format in `formats_to_save` is
attempted in order — an info message, the write, then a success or error
message according to the result of that writer alone. -/
def export_data (data : List Sample) (sel : ExportSelection) (writerOk : Fmt → Bool) :
    ExportReport :=
  if data = [] then
    { statuses := [.warning], attempts := [] }
  else
    { statuses :=
        ((formatsToSave sel).map fun f =>
          [StatusLevel.info, if writerOk f then StatusLevel.success else StatusLevel.error]).flatten
      attempts := (formatsToSave sel).map fun f => (f, writerOk f) }

/-- Pacing clamp `delay_s = max(interval_ms, MIN_UPDATE_INTERVAL_MS) / 1000.0` of
`_log_data_loop` (source line 743); the identical clamp appears as
`interval_ms = max(original_interval, MIN_UPDATE_INTERVAL_MS)` in the
variant `_log_data` (part_000 line 1662). -/
def effectiveDelayS (intervalMs : ℚ) : ℚ :=
  max intervalMs MIN_UPDATE_INTERVAL_MS / 1000

/-- The status messages `_log_data_loop` emits before entering its `while`
loop (source line 746): a single info message reporting the effective
interval; no interval-adjustment warning exists in this version. -/
def loopStartupStatuses (_intervalMs : ℚ) : List StatusLevel :=
  [.info]

/-- The status messages the variant `_log_data` emits before entering its
`while` loop (part_000 lines 1661-1675): a warning when and only when the
clamp changed the interval (`interval_ms != original_interval`), then the
"Logging data..." info message. -/
def variantStartupStatuses (intervalMs : ℚ) : List StatusLevel :=
  (if max intervalMs MIN_UPDATE_INTERVAL_MS ≠ intervalMs then [StatusLevel.warning] else []) ++
    [.info]

/-- The Stopping order asserted by the spec, stated as relative order of
occurrences in the stop trace: a force-off occurs, a disconnect occurs after
it, and the export hand-off occurs after that. -/
def claimedStopOrder (evs : List StopEvent) : Prop :=
  List.Sublist [StopEvent.forceOff, StopEvent.disconnect, StopEvent.exportData] evs

/-- Monitored value following the words of the spec: the measured current
itself in constant-voltage mode, the measured voltage in constant-current
mode. -/
def specMonitoredValue (cfg : Config) (v i : ℚ) : ℚ :=
  match cfg.operationMode with
  | .constantVoltage => i
  | .constantCurrent => v

/-- Threshold trigger following the words of the spec: monitored below the
threshold for `below`, monitored above it for `above`. -/
def specThresholdTrigger (cfg : Config) (v i : ℚ) : Bool :=
  match cfg.stopComparison with
  | .below => specMonitoredValue cfg v i < cfg.threshold
  | .above => specMonitoredValue cfg v i > cfg.threshold

/-- Monitored value the code actually compares: the absolute value of the
measured current in constant-voltage mode, the measured voltage in
constant-current mode. -/
def monitoredValue (cfg : Config) (v i : ℚ) : ℚ :=
  match cfg.operationMode with
  | .constantVoltage => |i|
  | .constantCurrent => v

/-- Threshold trigger of the amended claim: comparison of the
absolute-current / raw-voltage monitored value against the threshold. -/
def amendedThresholdTrigger (cfg : Config) (v i : ℚ) : Bool :=
  match cfg.stopComparison with
  | .below => monitoredValue cfg v i < cfg.threshold
  | .above => monitoredValue cfg v i > cfg.threshold

/-- A fresh logger state: nothing logged, nothing queued, flag clear. -/
def initialState : LoopState :=
  { logged := [], queued := [], stopFlag := false
    forceOffCount := 0, autoStopSignaled := false }

/-- Configuration of the worked threshold example: constant-voltage mode,
comparison `below`, threshold `0.1`. -/
def c2Config : Config :=
  { operationMode := .constantVoltage
    threshold := 1/10
    stopComparison := .below
    updateIntervalMs := 200
    isSimulating := true }

/-- A sample stream for the threshold example: the first tick lies inside the
settling window and already satisfies the comparison (`0.05 < 0.1`); the
current then decays from `0.5` down through `0.1` and first satisfies the
comparison after settling at `et = 2.5` with current `0.08`. -/
def c2Stream : List TickInput :=
  [.tick (1/2) (.ok 4 (1/20)), .tick (3/2) (.ok 4 (1/2)), .tick 2 (.ok 4 (3/20)),
   .tick (5/2) (.ok 4 (2/25)), .tick 3 (.ok 4 (1/100))]

/-- Configuration of the zero-output example: constant-current mode,
comparison `above`, threshold `5.0` — a threshold the voltage never
exceeds. -/
def c3Config : Config :=
  { operationMode := .constantCurrent
    threshold := 5
    stopComparison := .above
    updateIntervalMs := 200
    isSimulating := true }

/-- The `while not self.stop_event.is_set()` guard: once the flag is set the
loop performs no further iteration. -/
theorem runLoop_of_stopFlag (cfg : Config) (conn : Bool) (st : LoopState)
    (ts : List TickInput) (h : st.stopFlag = true) :
    runLoop cfg conn st ts = st := by
  cases ts with
  | nil => rfl
  | cons t ts => simp [runLoop, h]

/-- Starting from a live (not yet stopped) state, the loop appends to the
accumulator and publishes to the display queue exactly the produced
samples of the run, in order. -/
theorem runLoop_logged_queued (cfg : Config) (conn : Bool) :
    ∀ (ts : List TickInput) (st : LoopState), st.stopFlag = false →
      (runLoop cfg conn st ts).logged = st.logged ++ producedSamples cfg ts ∧
      (runLoop cfg conn st ts).queued = st.queued ++ producedSamples cfg ts := by
  intro ts
  induction ts with
  | nil => intro st h; simp [runLoop, producedSamples]
  | cons t ts ih =>
    intro st h
    cases t with
    | stopRequested =>
      simp [runLoop, h, logStep, producedSamples, runLoop_of_stopFlag]
    | tick et r =>
      cases r with
      | visaError =>
        simp [runLoop, h, logStep, producedSamples, runLoop_of_stopFlag]
      | parseError =>
        simp [runLoop, h, logStep, producedSamples, runLoop_of_stopFlag]
      | ok v c =>
        by_cases hs : stopNow cfg et v c
        · simp [runLoop, h, logStep, hs, producedSamples, runLoop_of_stopFlag]
        · have step :
              logStep cfg conn st (.tick et (.ok v c)) =
                { st with logged := st.logged ++ [mkSample et v c],
                          queued := st.queued ++ [mkSample et v c],
                          stopFlag := false } := by
            simp [logStep, hs, h]
          have ih' := ih { st with logged := st.logged ++ [mkSample et v c],
                                   queued := st.queued ++ [mkSample et v c],
                                   stopFlag := false } rfl
          simp [runLoop, h, step, producedSamples, hs, ih'.1, ih'.2]

/-- Length of a bounded-deque append: the series grows by one until it hits
the capacity and stays there. -/
theorem dequeAppend_length (cap : ℕ) (xs : List α) (x : α) :
    (dequeAppend cap xs x).length = min (xs.length + 1) cap := by
  simp only [dequeAppend, List.length_append, List.length_cons, List.length_nil]
  split_ifs with h
  · simp only [List.length_drop, List.length_append, List.length_cons, List.length_nil]
    omega
  · simp only [List.length_append, List.length_cons, List.length_nil]
    omega

/-- A bounded-deque append of `x` to the most recent `cap` elements of `l`
yields the most recent `cap` elements of `l ++ [x]`. -/
theorem dequeAppend_drop (cap : ℕ) (l : List α) (x : α) :
    dequeAppend cap (l.drop (l.length - cap)) x =
      (l ++ [x]).drop ((l ++ [x]).length - cap) := by
  simp only [dequeAppend, List.length_append, List.length_cons, List.length_nil,
    List.length_drop]
  split_ifs with h
  · have hcl : cap ≤ l.length := by omega
    have happ : l.drop (l.length - cap) ++ [x] = (l ++ [x]).drop (l.length - cap) :=
      (List.drop_append_of_le_length (Nat.sub_le _ _)).symm
    rw [happ, List.drop_drop]
    congr 1
    omega
  · have hlc : l.length < cap := by omega
    have h0 : l.length - cap = 0 := Nat.sub_eq_zero_of_le (Nat.le_of_lt hlc)
    have h1 : l.length + 1 - cap = 0 := Nat.sub_eq_zero_of_le hlc
    simp [h0, h1]

/-- Folding bounded-deque appends over a list keeps exactly the most recent
`cap` elements, in order. -/
theorem foldl_dequeAppend (cap : ℕ) (acc : List α) (h : acc.length ≤ cap)
    (xs : List α) :
    xs.foldl (dequeAppend cap) acc = (acc ++ xs).drop ((acc ++ xs).length - cap) := by
  induction xs using List.reverseRecOn with
  | nil => simp [Nat.sub_eq_zero_of_le h]
  | append_singleton xs x ih =>
    rw [← List.append_assoc, List.foldl_append, ih, List.foldl_cons, List.foldl_nil,
      dequeAppend_drop]

/-- Both plotting-buffer operations leave the capacity unchanged. -/
theorem applyDMOps_maxPlotPoints (ops : List DMOp) :
    ∀ dm : DataManager, (applyDMOps dm ops).maxPlotPoints = dm.maxPlotPoints := by
  induction ops with
  | nil => intro dm; rfl
  | cons op ops ih =>
    intro dm
    cases op with
    | append row => simpa [applyDMOps, applyDMOp, appendForPlotting] using ih _
    | clear => simpa [applyDMOps, applyDMOp, clearPlotData] using ih _

/-- A run of appends acts on each of the five series as a fold of
bounded-deque appends of the projection of that series. -/
theorem applyDMOps_append_series (rows : List PlotRow) :
    ∀ dm : DataManager,
      (applyDMOps dm (rows.map .append)).timeData =
        (rows.map PlotRow.t).foldl (dequeAppend dm.maxPlotPoints) dm.timeData ∧
      (applyDMOps dm (rows.map .append)).voltageData =
        (rows.map PlotRow.v).foldl (dequeAppend dm.maxPlotPoints) dm.voltageData ∧
      (applyDMOps dm (rows.map .append)).currentData =
        (rows.map PlotRow.i).foldl (dequeAppend dm.maxPlotPoints) dm.currentData ∧
      (applyDMOps dm (rows.map .append)).powerData =
        (rows.map PlotRow.p).foldl (dequeAppend dm.maxPlotPoints) dm.powerData ∧
      (applyDMOps dm (rows.map .append)).resistanceData =
        (rows.map PlotRow.r).foldl (dequeAppend dm.maxPlotPoints) dm.resistanceData := by
  induction rows with
  | nil => intro dm; exact ⟨rfl, rfl, rfl, rfl, rfl⟩
  | cons row rows ih =>
    intro dm
    have h := ih (appendForPlotting dm row.t row.v row.i row.p row.r)
    simpa [applyDMOps, applyDMOp, appendForPlotting] using h

/-- One operation keeps the five series in lock-step. -/
theorem seriesInLockstep_applyDMOp (dm : DataManager) (op : DMOp)
    (h : seriesInLockstep dm) : seriesInLockstep (applyDMOp dm op) := by
  obtain ⟨h1, h2, h3, h4⟩ := h
  cases op with
  | append row =>
    simp [applyDMOp, appendForPlotting, seriesInLockstep, dequeAppend_length,
      ← h1, ← h2, ← h3, ← h4]
  | clear =>
    simp [applyDMOp, clearPlotData, seriesInLockstep]

/-- Any sequence of operations keeps the five series in lock-step. -/
theorem seriesInLockstep_applyDMOps (ops : List DMOp) :
    ∀ dm : DataManager, seriesInLockstep dm → seriesInLockstep (applyDMOps dm ops) := by
  induction ops with
  | nil => intro dm h; exact h
  | cons op ops ih =>
    intro dm h
    exact ih _ (seriesInLockstep_applyDMOp dm op h)

/-- The fresh buffer is in lock-step (all series empty). -/
theorem seriesInLockstep_mkDataManager (n : ℕ) :
    seriesInLockstep (mkDataManager n) := by
  simp [mkDataManager, seriesInLockstep]

/-- C5: for every run, the accumulated sample list handed to the export
pipeline at stop equals exactly the ordered sequence of samples produced
during that run — every produced sample present, none duplicated, in
production order, and nothing from a prior run, since `start` clears the
accumulator before the worker begins. -/
theorem C5_accumulator_exact (cfg : Config) (conn : Bool) (prior : LoopState)
    (ts : List TickInput) :
    (startRun prior).logged = [] ∧
    (runLoop cfg conn (startRun prior) ts).logged = producedSamples cfg ts ∧
    (stopRun cfg.isSimulating conn
        ((runLoop cfg conn (startRun prior) ts).logged)).exported =
      producedSamples cfg ts := by
  have h := (runLoop_logged_queued cfg conn ts (startRun prior) rfl).1
  have hlog : (runLoop cfg conn (startRun prior) ts).logged = producedSamples cfg ts := by
    rw [h]; rfl
  exact ⟨rfl, hlog, by rw [stopRun, hlog]⟩

/-- C8: every sample produced on a tick with measured voltage `v` and current
`c` records power `v * c`, and records the infinite resistance exactly when
`abs c` is at most `1e-9`, the quotient `v / c` otherwise. -/
theorem C8_power_resistance (et v c : ℚ) :
    (mkSample et v c).power = v * c ∧
    ((mkSample et v c).resistance = none ↔ |c| ≤ RESISTANCE_EPS) ∧
    (RESISTANCE_EPS < |c| → (mkSample et v c).resistance = some (v / c)) := by
  refine ⟨rfl, ?_, fun h => by simp [mkSample, h]⟩
  by_cases h : RESISTANCE_EPS < |c|
  · simp [mkSample, h, not_le.mpr h]
  · simp [mkSample, h, not_lt.mp h]

/-- Witness for C8 at a concrete sample: current `2` clears the epsilon
guard and the recorded resistance is the quotient. -/
theorem C8_power_resistance_witness :
    RESISTANCE_EPS < |(2:ℚ)| ∧ (mkSample 0 4 2).resistance = some (4 / 2) := by
  have h : RESISTANCE_EPS < |(2:ℚ)| := by norm_num [RESISTANCE_EPS]
  exact ⟨h, (C8_power_resistance 0 4 2).2.2 h⟩

/-- C9: exporting an empty sample list is a warning-only no-op with no write
attempted; with format `all`, every format is attempted in order and each
reports its own success or error, independent of the result of the others. -/
theorem C9_export_empty_and_all (sel : ExportSelection) (w : Fmt → Bool)
    (s : Sample) (rest : List Sample) :
    export_data [] sel w = { statuses := [.warning], attempts := [] } ∧
    (export_data (s :: rest) .allFormats w).attempts =
      [(.csv, w .csv), (.xlsx, w .xlsx), (.json, w .json)] ∧
    (export_data (s :: rest) .allFormats w).statuses =
      [.info, if w .csv then .success else .error,
       .info, if w .xlsx then .success else .error,
       .info, if w .json then .success else .error] := by
  refine ⟨by simp [export_data], ?_, ?_⟩ <;> simp [export_data, formatsToSave]

/-- C10: on every tick that completes a read, the sample is appended to the
accumulator and published to the display queue before the stop conditions are
evaluated, so the sample that triggers an auto-stop is itself part of the
accumulated data handed to export and of the display stream. -/
theorem C10_sample_logged_before_stop (cfg : Config) (conn sim : Bool)
    (st : LoopState) (et v c : ℚ) :
    (logStep cfg conn st (.tick et (.ok v c))).logged = st.logged ++ [mkSample et v c] ∧
    (logStep cfg conn st (.tick et (.ok v c))).queued = st.queued ++ [mkSample et v c] ∧
    mkSample et v c ∈
      (stopRun sim conn ((logStep cfg conn st (.tick et (.ok v c))).logged)).exported := by
  by_cases hs : stopNow cfg et v c <;> simp [logStep, hs, stopRun]

/-- C1 counterexample: on a real-instrument run with a live handle, the stop
trace of `DataLogger.stop` is export first, then force-off, then disconnect,
then clearing the thread handle — so the order asserted by the claim
(force-off, then disconnect, then export) does not occur. -/
theorem C1_counterexample :
    (stopRun false true [mkSample 2 4 1]).events =
      [.exportData, .forceOff, .disconnect, .clearThread] ∧
    ¬ claimedStopOrder (stopRun false true [mkSample 2 4 1]).events := by
  constructor
  · rfl
  · show ¬ claimedStopOrder [.exportData, .forceOff, .disconnect, .clearThread]
    unfold claimedStopOrder
    decide

/-- C1 amended: the stop procedure runs exactly once per run and performs, in
this order: hand the complete accumulator (with config snapshot and notes) to
the export pipeline, then — when not simulating and a handle is live — one
force-off attempt immediately followed by exactly one disconnect, then clear
the worker-thread handle; the accumulator itself is cleared by the next
`start`, not by `stop`. -/
theorem C1_stop_procedure (sim conn : Bool) (logged : List Sample)
    (prior : LoopState) :
    (stopRun sim conn logged).exported = logged ∧
    (stopRun sim conn logged).events.count .exportData = 1 ∧
    (stopRun sim conn logged).events.count .clearThread = 1 ∧
    (stopRun sim conn logged).events.count .forceOff =
      (if sim = false ∧ conn = true then 1 else 0) ∧
    (stopRun sim conn logged).events.count .disconnect =
      (if sim = false ∧ conn = true then 1 else 0) ∧
    (stopRun false true logged).events =
      [.exportData, .forceOff, .disconnect, .clearThread] ∧
    (stopRun sim conn logged).loggedAfter = logged ∧
    (startRun prior).logged = [] := by
  cases sim <;> cases conn <;>
    simp [stopRun, startRun, List.count_cons, List.count_nil]

/-- C2 counterexample: in constant-voltage mode with comparison `below` and
threshold `0.1`, a post-settling tick measuring current `-0.2` satisfies the
comparison of the claim (`-0.2 < 0.1` on the measured current) yet the code
compares `abs(i) = 0.2` and does not stop. -/
theorem C2_counterexample :
    specThresholdTrigger c2Config 4 (-1/5) = true ∧
    checkStopCondition c2Config 4 (-1/5) = false ∧
    stopNow c2Config 2 4 (-1/5) = false := by
  refine ⟨?_, ?_, ?_⟩ <;>
    norm_num [specThresholdTrigger, specMonitoredValue, checkStopCondition,
      stopNow, c2Config, ZERO_VI_THRESHOLD, ZERO_VI_STOP_DELAY_S,
      INITIAL_SETTLING_TIME_S, abs_of_nonneg, abs_of_nonpos]

/-- C2 amended: no stop fires at or before the settling window; strictly
after it, and whenever the zero-output rule has not fired, the tick stops
exactly when the configured comparison holds on the monitored value — the
absolute value of the measured current in constant-voltage mode, the measured
voltage in constant-current mode; on the worked stream (mode constant
voltage, comparison `below`, threshold `0.1`) the run stops at the first
post-settling sample with `abs(current) < 0.1` even though an earlier
pre-settling sample already satisfied the comparison. -/
theorem C2_threshold_stop (cfg : Config) (v i et : ℚ) :
    (et ≤ INITIAL_SETTLING_TIME_S → stopNow cfg et v i = false) ∧
    (et > INITIAL_SETTLING_TIME_S →
      ¬(|v| < ZERO_VI_THRESHOLD ∧ |i| < ZERO_VI_THRESHOLD) →
      stopNow cfg et v i = amendedThresholdTrigger cfg v i) ∧
    (runLoop c2Config true (startRun initialState) c2Stream).logged =
      [mkSample (1/2) 4 (1/20), mkSample (3/2) 4 (1/2),
       mkSample 2 4 (3/20), mkSample (5/2) 4 (2/25)] := by
  refine ⟨fun h => ?_, fun h1 h2 => ?_, ?_⟩
  · have hz : ¬(et > ZERO_VI_STOP_DELAY_S ∧ |v| < ZERO_VI_THRESHOLD ∧
        |i| < ZERO_VI_THRESHOLD) := by
      intro hc
      exact absurd hc.1 (not_lt.mpr h)
    have hs : ¬ et > INITIAL_SETTLING_TIME_S := not_lt.mpr h
    unfold stopNow
    rw [if_neg hz, if_neg hs]
  · have hz : ¬(et > ZERO_VI_STOP_DELAY_S ∧ |v| < ZERO_VI_THRESHOLD ∧
        |i| < ZERO_VI_THRESHOLD) := by
      intro hc
      exact h2 ⟨hc.2.1, hc.2.2⟩
    unfold stopNow
    rw [if_neg hz, if_pos h1]
    unfold checkStopCondition amendedThresholdTrigger monitoredValue
    cases cfg.operationMode <;> cases cfg.stopComparison <;> rfl
  · rw [(runLoop_logged_queued c2Config true c2Stream (startRun initialState) rfl).1]
    show [] ++ producedSamples c2Config c2Stream = _
    norm_num [c2Stream, producedSamples, stopNow, checkStopCondition, c2Config,
      ZERO_VI_STOP_DELAY_S, ZERO_VI_THRESHOLD, INITIAL_SETTLING_TIME_S,
      abs_of_nonneg]

/-- Witness for C2 at concrete ticks: the pre-settling tick at `et = 0.5`
with current `0.05` does not stop, while the post-settling tick at `et = 2`
with voltage `4` and current `0.08` stops exactly as the amended comparison
(`abs(0.08) < 0.1`) dictates. -/
theorem C2_threshold_stop_witness :
    stopNow c2Config (1/2) 4 (1/20) = false ∧
    stopNow c2Config 2 4 (2/25) = amendedThresholdTrigger c2Config 4 (2/25) := by
  constructor
  · exact (C2_threshold_stop c2Config 4 (1/20) (1/2)).1
      (by norm_num [INITIAL_SETTLING_TIME_S])
  · exact (C2_threshold_stop c2Config 4 (2/25)
      2).2.1 (by norm_num [INITIAL_SETTLING_TIME_S])
      (by norm_num [ZERO_VI_THRESHOLD, abs_of_nonneg])

/-- C3: on any tick past the one-second delay whose measured voltage and
current are both below `1e-3` in absolute value, the loop stops — whatever
the configured mode, threshold and comparison say — setting the stop flag,
emitting the distinguished auto-stop signal, and issuing the output-off write
when a real instrument is connected; the zero-output rule is the `if` branch
evaluated before the threshold `elif`. -/
theorem C3_zero_output_stop (cfg : Config) (conn : Bool) (st : LoopState)
    (et v i : ℚ) (ht : et > ZERO_VI_STOP_DELAY_S)
    (hv : |v| < ZERO_VI_THRESHOLD) (hi : |i| < ZERO_VI_THRESHOLD) :
    stopNow cfg et v i = true ∧
    (logStep cfg conn st (.tick et (.ok v i))).stopFlag = true ∧
    (logStep cfg conn st (.tick et (.ok v i))).autoStopSignaled = true ∧
    (logStep cfg conn st (.tick et (.ok v i))).forceOffCount =
      st.forceOffCount + (if cfg.isSimulating = false ∧ conn = true then 1 else 0) := by
  have hs : stopNow cfg et v i = true := by
    unfold stopNow
    rw [if_pos ⟨ht, hv, hi⟩]
  refine ⟨hs, ?_, ?_, ?_⟩ <;> simp [logStep, hs]

/-- Witness for C3 at the example of the spec: constant-current mode,
comparison `above`, threshold `5`, a tick at `et = 2` measuring `(0, 0)` —
the configured threshold comparison itself is false, yet the zero-output rule
stops the run with the auto-stop signal. -/
theorem C3_zero_output_stop_witness :
    checkStopCondition c3Config 0 0 = false ∧
    stopNow c3Config 2 0 0 = true ∧
    (logStep c3Config true initialState (.tick 2 (.ok 0 0))).stopFlag = true ∧
    (logStep c3Config true initialState (.tick 2 (.ok 0 0))).autoStopSignaled = true := by
  have h := C3_zero_output_stop c3Config true initialState 2 0 0
    (by norm_num [ZERO_VI_STOP_DELAY_S])
    (by norm_num [ZERO_VI_THRESHOLD])
    (by norm_num [ZERO_VI_THRESHOLD])
  exact ⟨by norm_num [checkStopCondition, c3Config], h.1, h.2.1, h.2.2.1⟩

/-- C4 counterexample: in `Power_Supply_Stopper.py` the bare
`except Exception` clause catches the `ValueError` of a malformed numeric
reply, so a parse error aborts the run rather than skipping the tick: after
a parse-error tick the loop has logged nothing, the stop flag is set, and the
subsequent good read is never logged. -/
theorem C4_counterexample :
    readHandlingMain .parseError = .abortRun ∧
    readHandlingMain .parseError ≠ .skipTickWithWarning ∧
    (runLoop c2Config true (startRun initialState)
        [.tick 1 .parseError, .tick 2 (.ok 4 1)]).logged = [] ∧
    (runLoop c2Config true (startRun initialState)
        [.tick 1 .parseError, .tick 2 (.ok 4 1)]).stopFlag = true := by
  refine ⟨rfl, by decide, ?_, ?_⟩ <;>
    simp [runLoop, logStep, startRun, initialState]

/-- C4 amended: only the variant loop of the second source file treats a
parse error as recoverable — warning, skip the tick, keep running — while a
VISA I/O error aborts; in `Power_Supply_Stopper.py` both a parse error and a
protocol error abort the run to Stopping. -/
theorem C4_read_error_dispatch (v c : ℚ) (cfg : Config) (conn : Bool)
    (st : LoopState) (et : ℚ) (ts : List TickInput) (h : st.stopFlag = false) :
    readHandlingVariant .parseError = .skipTickWithWarning ∧
    readHandlingVariant .visaError = .abortRun ∧
    readHandlingVariant (.ok v c) = .logSample ∧
    readHandlingMain .parseError = .abortRun ∧
    readHandlingMain .visaError = .abortRun ∧
    runLoop cfg conn st (.tick et .parseError :: ts) = { st with stopFlag := true } ∧
    runLoop cfg conn st (.tick et .visaError :: ts) = { st with stopFlag := true } := by
  refine ⟨rfl, rfl, rfl, rfl, rfl, ?_, ?_⟩ <;>
    simp [runLoop, h, logStep, runLoop_of_stopFlag]

/-- Witness for C4 applying the dispatch theorem at a concrete state and
stream: a parse-error tick from the fresh state aborts the run at once. -/
theorem C4_read_error_dispatch_witness :
    runLoop c2Config true initialState [.tick 1 .parseError] =
      { initialState with stopFlag := true } :=
  (C4_read_error_dispatch 0 0 c2Config true initialState 1 [] rfl).2.2.2.2.2.1

/-- C6: the plotting window capacity is `max(configured, 10)`, hence at least
10; after appending any sequence of rows the five series hold exactly the
most recent `capacity` entries of their projections, in order (so for more
rows than capacity, exactly the last `capacity` of them), and after any
sequence of appends and clears all five series have identical length. -/
theorem C6_sliding_window (n : ℕ) (rows : List PlotRow) (ops : List DMOp) :
    MIN_PLOT_POINTS ≤ (mkDataManager n).maxPlotPoints ∧
    (mkDataManager n).maxPlotPoints = max n MIN_PLOT_POINTS ∧
    ((applyDMOps (mkDataManager n) (rows.map .append)).timeData =
        (rows.map PlotRow.t).drop (rows.length - max n MIN_PLOT_POINTS) ∧
      (applyDMOps (mkDataManager n) (rows.map .append)).voltageData =
        (rows.map PlotRow.v).drop (rows.length - max n MIN_PLOT_POINTS) ∧
      (applyDMOps (mkDataManager n) (rows.map .append)).currentData =
        (rows.map PlotRow.i).drop (rows.length - max n MIN_PLOT_POINTS) ∧
      (applyDMOps (mkDataManager n) (rows.map .append)).powerData =
        (rows.map PlotRow.p).drop (rows.length - max n MIN_PLOT_POINTS) ∧
      (applyDMOps (mkDataManager n) (rows.map .append)).resistanceData =
        (rows.map PlotRow.r).drop (rows.length - max n MIN_PLOT_POINTS)) ∧
    (applyDMOps (mkDataManager n) (rows.map .append)).timeData.length =
      min rows.length (max n MIN_PLOT_POINTS) ∧
    seriesInLockstep (applyDMOps (mkDataManager n) ops) := by
  obtain ⟨h1, h2, h3, h4, h5⟩ := applyDMOps_append_series rows (mkDataManager n)
  have hcap : (mkDataManager n).maxPlotPoints = max n MIN_PLOT_POINTS := rfl
  have hfold : ∀ {α : Type} (xs : List α),
      xs.foldl (dequeAppend (max n MIN_PLOT_POINTS)) ([] : List α) =
        xs.drop (xs.length - max n MIN_PLOT_POINTS) := by
    intro α xs
    simpa using foldl_dequeAppend (max n MIN_PLOT_POINTS) [] (by simp) xs
  have htime : (applyDMOps (mkDataManager n) (rows.map .append)).timeData =
      (rows.map PlotRow.t).drop (rows.length - max n MIN_PLOT_POINTS) := by
    rw [h1]
    show (rows.map PlotRow.t).foldl (dequeAppend (max n MIN_PLOT_POINTS)) [] = _
    rw [hfold, List.length_map]
  refine ⟨Nat.le_max_right _ _, hcap, ⟨htime, ?_, ?_, ?_, ?_⟩, ?_,
    seriesInLockstep_applyDMOps ops _ (seriesInLockstep_mkDataManager n)⟩
  · rw [h2]
    show (rows.map PlotRow.v).foldl (dequeAppend (max n MIN_PLOT_POINTS)) [] = _
    rw [hfold, List.length_map]
  · rw [h3]
    show (rows.map PlotRow.i).foldl (dequeAppend (max n MIN_PLOT_POINTS)) [] = _
    rw [hfold, List.length_map]
  · rw [h4]
    show (rows.map PlotRow.p).foldl (dequeAppend (max n MIN_PLOT_POINTS)) [] = _
    rw [hfold, List.length_map]
  · rw [h5]
    show (rows.map PlotRow.r).foldl (dequeAppend (max n MIN_PLOT_POINTS)) [] = _
    rw [hfold, List.length_map]
  · rw [htime]
    simp only [List.length_drop, List.length_map]
    omega

/-- C7 counterexample: a configured interval of 1 ms is below the 10 ms floor
and is clamped, but `_log_data_loop` of `Power_Supply_Stopper.py` emits no
warning about the adjustment — its pre-loop status traffic is the single info
message. -/
theorem C7_counterexample :
    (1 : ℚ) < MIN_UPDATE_INTERVAL_MS ∧
    effectiveDelayS 1 = MIN_UPDATE_INTERVAL_MS / 1000 ∧
    loopStartupStatuses 1 = [.info] ∧
    StatusLevel.warning ∉ loopStartupStatuses 1 := by
  refine ⟨by norm_num [MIN_UPDATE_INTERVAL_MS], ?_, rfl,
    by simp [loopStartupStatuses]⟩
  rw [effectiveDelayS, max_eq_right (by norm_num [MIN_UPDATE_INTERVAL_MS])]

/-- C7 amended: both loops clamp the per-tick delay to
`max(interval, 10 ms) / 1000`, so the effective delay never falls below the
floor; the variant loop of the second source file emits the adjustment
warning exactly once per run, when and only when the configured interval was
below the floor, while `_log_data_loop` of `Power_Supply_Stopper.py` clamps
silently (no warning in its startup status traffic). -/
theorem C7_pacing_floor (ms : ℚ) :
    MIN_UPDATE_INTERVAL_MS / 1000 ≤ effectiveDelayS ms ∧
    effectiveDelayS ms =
      (if ms < MIN_UPDATE_INTERVAL_MS then MIN_UPDATE_INTERVAL_MS / 1000
       else ms / 1000) ∧
    (variantStartupStatuses ms).count .warning =
      (if ms < MIN_UPDATE_INTERVAL_MS then 1 else 0) ∧
    (loopStartupStatuses ms).count .warning = 0 := by
  rcases le_or_lt MIN_UPDATE_INTERVAL_MS ms with h | h
  · have hm : max ms MIN_UPDATE_INTERVAL_MS = ms := max_eq_left h
    have hni : ¬ ms < MIN_UPDATE_INTERVAL_MS := not_lt.mpr h
    refine ⟨?_, ?_, ?_, rfl⟩
    · rw [effectiveDelayS, hm]
      have h1000 : (0:ℚ) ≤ 1000 := by norm_num
      exact div_le_div_of_nonneg_right h h1000
    · rw [effectiveDelayS, hm, if_neg hni]
    · rw [if_neg hni]
      simp [variantStartupStatuses, hm]
  · have hm : max ms MIN_UPDATE_INTERVAL_MS = MIN_UPDATE_INTERVAL_MS :=
      max_eq_right (le_of_lt h)
    have hne : max ms MIN_UPDATE_INTERVAL_MS ≠ ms := by
      rw [hm]; exact fun hc => absurd hc (ne_of_gt h)
    refine ⟨?_, ?_, ?_, rfl⟩
    · rw [effectiveDelayS, hm]
    · rw [effectiveDelayS, hm, if_pos h]
    · rw [if_pos h]
      simp [variantStartupStatuses, hne]

end PSS
